import Mathlib

/-!
Verification of the vision-node controller (`src/vision_node.py`) of the
face-mqtt-servo repository: the per-frame movement decision, the per-episode
snapshot gate, the two publish-rate gates, the camera-acquisition fallback and
the movement-message codec, shallowly embedded in Lean 4.

Pixel coordinates and wall-clock times are modelled as exact rationals;
the external lock oracle's result is an input to each frame step.
-/

namespace VisionNode

/-- Movement status strings emitted by the node (`"NO_FACE"`, `"MOVE_LEFT"`,
`"MOVE_RIGHT"`, `"CENTERED"`). -/
inductive Status where
  | NO_FACE
  | MOVE_LEFT
  | MOVE_RIGHT
  | CENTERED
deriving DecidableEq, Repr

/-- Lock phase reported by the external `FaceLockSystem` oracle
(`LockState.SEARCHING` / `LockState.LOCKED` in `src/face_locking.py`). -/
inductive LockState where
  | SEARCHING
  | LOCKED
deriving DecidableEq, Repr

/-- Bounding box of the tracked target face for one frame
(fields `x1, y1, x2, y2` of the `target_face` object). -/
structure Face where
  x1 : ℚ
  y1 : ℚ
  x2 : ℚ
  y2 : ℚ
deriving DecidableEq, Repr

/-- Per-frame input to the loop body of `VisionNode.run`: the oracle's
`lock_state` and optional `target_face`, the frame dimensions `W`, `H`
(after the mirror flip) and the wall-clock reading `time.time()` taken
during this iteration. -/
structure FrameInput where
  lockState : LockState
  targetFace : Option Face
  W : ℕ
  H : ℕ
  time : ℚ
deriving DecidableEq, Repr

/-- The mutable controller fields of `VisionNode` that persist across frames:
`last_status`, `snapshot_sent`, `last_publish_time`, `last_heartbeat`. -/
structure NodeState where
  lastStatus : Status
  snapshotSent : Bool
  lastPublishTime : ℚ
  lastHeartbeat : ℚ
deriving DecidableEq, Repr

/-- Initial controller state set in `VisionNode.__init__`
(lines 82-87: `last_heartbeat = 0`, `last_publish_time = 0`,
`snapshot_sent = False`, `last_status = "CENTERED"`). -/
def initState : NodeState :=
  { lastStatus := Status.CENTERED
    snapshotSent := false
    lastPublishTime := 0
    lastHeartbeat := 0 }

/-- Python `int()` applied to a rational: truncation toward zero. -/
def pyint (q : ℚ) : ℤ :=
  if 0 ≤ q then ⌊q⌋ else ⌈q⌉

/-- A cropped sub-rectangle of the frame, `frame[y1:y2, x1:x2]`,
identified by its four clamped integer bounds. -/
structure CropRect where
  x1 : ℤ
  y1 : ℤ
  x2 : ℤ
  y2 : ℤ
deriving DecidableEq, Repr

/-- The face crop computed on lines 153-160: the integer-truncated box
padded by 20 pixels on each side and clamped to the frame bounds. -/
def cropRect (f : Face) (W H : ℕ) : CropRect :=
  { x1 := max 0 (pyint f.x1 - 20)
    y1 := max 0 (pyint f.y1 - 20)
    x2 := min (W : ℤ) (pyint f.x2 + 20)
    y2 := min (H : ℤ) (pyint f.y2 + 20) }

/-- A movement message as assembled by `publish_movement`
(the image payload is carried here as the crop that was attached,
before JPEG/base64 encoding; `none` when no `face_image` field is sent). -/
structure MovementMsg where
  status : Status
  target : String
  locked : Bool
  faceImage : Option CropRect
deriving DecidableEq, Repr

/-- Everything one loop iteration emits: the computed status, the optional
face crop captured this frame, the movement message published this frame
(if the 10 Hz gate admitted it) and whether a heartbeat was published. -/
structure FrameOutput where
  status : Status
  faceCrop : Option CropRect
  movementMsg : Option MovementMsg
  heartbeat : Bool
deriving DecidableEq, Repr

/-- One iteration of the `while self.running` loop of `VisionNode.run`
(lines 137-197), for a frame on which `cap.read()` succeeded:
status/crop decision (lines 140-185), 10 Hz movement rate gate
(lines 187-192) and 5 s heartbeat gate (lines 194-197). -/
def stepFrame (targetName : String) (s : NodeState) (fr : FrameInput) :
    NodeState × FrameOutput :=
  -- status = "NO_FACE"; face_crop = None; then the branch on lock_state
  let dec : Status × Option CropRect × Status × Bool :=
    match fr.lockState, fr.targetFace with
    | LockState.SEARCHING, _ =>
        -- lines 140-145: searching; reset the snapshot flag
        (Status.NO_FACE, none, s.lastStatus, false)
    | LockState.LOCKED, some f =>
        -- lines 147-178: locked with a visible target
        let crop : Option CropRect :=
          if ¬ s.snapshotSent then some (cropRect f fr.W fr.H) else none
        let cx : ℚ := (f.x1 + f.x2) / 2
        let cxNorm : ℚ := cx / (fr.W : ℚ)
        let status : Status :=
          if cxNorm < 0.4 then Status.MOVE_LEFT
          else if cxNorm > 0.6 then Status.MOVE_RIGHT
          else Status.CENTERED
        (status, crop, status, true)
    | LockState.LOCKED, none =>
        -- lines 179-185: locked but target momentarily not re-detected
        let status : Status :=
          if s.lastStatus = Status.NO_FACE then Status.CENTERED
          else s.lastStatus
        (status, none, s.lastStatus, s.snapshotSent)
  let status := dec.1
  let faceCrop := dec.2.1
  let lastStatus' := dec.2.2.1
  let snapshotSent' := dec.2.2.2
  -- lines 187-192: rate limiting (10 Hz)
  let movAdmit : Bool := decide (fr.time - s.lastPublishTime ≥ 0.1)
  let movementMsg : Option MovementMsg :=
    if movAdmit then
      some { status := status
             target := targetName
             locked := decide (status ≠ Status.NO_FACE)
             faceImage := faceCrop }
    else none
  let lastPublishTime' := if movAdmit then fr.time else s.lastPublishTime
  -- lines 194-197: heartbeat every 5 s
  let hbAdmit : Bool := decide (fr.time - s.lastHeartbeat > 5)
  let lastHeartbeat' := if hbAdmit then fr.time else s.lastHeartbeat
  (⟨lastStatus', snapshotSent', lastPublishTime', lastHeartbeat'⟩,
   ⟨status, faceCrop, movementMsg, hbAdmit⟩)

/-- Run the frame loop over a list of frame inputs, threading the state. -/
def runFrames (targetName : String) (s : NodeState) :
    List FrameInput → NodeState × List FrameOutput
  | [] => (s, [])
  | fr :: rest =>
      let p := stepFrame targetName s fr
      let q := runFrames targetName p.1 rest
      (q.1, p.2 :: q.2)

/-- Number of frames in a trace that produced a (non-null) face crop. -/
def cropCount (outs : List FrameOutput) : ℕ :=
  (outs.filter (fun o => o.faceCrop.isSome)).length

/-- Number of frames in a trace on which a movement message was published. -/
def movCount (outs : List FrameOutput) : ℕ :=
  (outs.filter (fun o => o.movementMsg.isSome)).length

/-- Number of frames in a trace on which a heartbeat was published. -/
def hbCount (outs : List FrameOutput) : ℕ :=
  (outs.filter (fun o => o.heartbeat)).length

/-! ## Basic step lemmas -/

/-- The status computed on a LOCKED frame with a visible target, written as a
function of the normalized horizontal center. -/
theorem stepFrame_status_locked_visible (tn : String)
    (ls : Status) (sn : Bool) (lp lh : ℚ) (f : Face) (W H : ℕ) (t : ℚ) :
    (stepFrame tn ⟨ls, sn, lp, lh⟩ ⟨LockState.LOCKED, some f, W, H, t⟩).2.status =
      (if ((f.x1 + f.x2) / 2) / (W : ℚ) < 0.4 then Status.MOVE_LEFT
       else if ((f.x1 + f.x2) / 2) / (W : ℚ) > 0.6 then Status.MOVE_RIGHT
       else Status.CENTERED) := by
  simp only [stepFrame]

/-- The status computed on a LOCKED frame with the target momentarily absent. -/
theorem stepFrame_status_locked_absent (tn : String) (s : NodeState)
    (fr : FrameInput) (hL : fr.lockState = LockState.LOCKED)
    (hf : fr.targetFace = none) :
    (stepFrame tn s fr).2.status =
      (if s.lastStatus = Status.NO_FACE then Status.CENTERED else s.lastStatus) ∧
    (stepFrame tn s fr).1.lastStatus = s.lastStatus ∧
    (stepFrame tn s fr).1.snapshotSent = s.snapshotSent := by
  obtain ⟨ls, tf, W, H, t⟩ := fr
  cases hL; cases hf
  exact ⟨rfl, rfl, rfl⟩

/-! ## C1 — deadband decision on LOCKED frames with a visible target -/

/-- C1: while LOCKED with a visible target region, the status is determined
solely by `cxNorm = ((x1 + x2) / 2) / W`: `MOVE_LEFT` iff `cxNorm < 0.4`,
`MOVE_RIGHT` iff `cxNorm > 0.6`, `CENTERED` otherwise; the boundary values
`0.4` and `0.6` both map to `CENTERED`. -/
theorem C1_deadband (tn : String) (s : NodeState) (fr : FrameInput) (f : Face)
    (hL : fr.lockState = LockState.LOCKED) (hf : fr.targetFace = some f) :
    ((stepFrame tn s fr).2.status =
      (if ((f.x1 + f.x2) / 2) / (fr.W : ℚ) < 0.4 then Status.MOVE_LEFT
       else if ((f.x1 + f.x2) / 2) / (fr.W : ℚ) > 0.6 then Status.MOVE_RIGHT
       else Status.CENTERED)) ∧
    (((f.x1 + f.x2) / 2) / (fr.W : ℚ) = 0.4 →
      (stepFrame tn s fr).2.status = Status.CENTERED) ∧
    (((f.x1 + f.x2) / 2) / (fr.W : ℚ) = 0.6 →
      (stepFrame tn s fr).2.status = Status.CENTERED) := by
  obtain ⟨ls, tf, W, H, t⟩ := fr
  obtain ⟨ls', sn, lp, lh⟩ := s
  cases hL; cases hf
  refine ⟨stepFrame_status_locked_visible tn ls' sn lp lh f W H t, ?_, ?_⟩
  · intro h
    rw [stepFrame_status_locked_visible tn ls' sn lp lh f W H t, h]
    norm_num
  · intro h
    rw [stepFrame_status_locked_visible tn ls' sn lp lh f W H t, h]
    norm_num

/-- C1 witness: a face spanning `x ∈ [30, 50]` in a 100-pixel-wide frame has
`cxNorm = 0.4` exactly and is reported `CENTERED`. -/
theorem C1_deadband_witness :
    (stepFrame "andrew" initState
      ⟨LockState.LOCKED, some ⟨30, 0, 50, 10⟩, 100, 100, 0⟩).2.status =
      Status.CENTERED := by
  have h := C1_deadband "andrew" initState
    ⟨LockState.LOCKED, some ⟨30, 0, 50, 10⟩, 100, 100, 0⟩ ⟨30, 0, 50, 10⟩ rfl rfl
  exact h.2.1 (by norm_num)

/-- The movement message published on a frame, as a function of the admission
condition of the 10 Hz gate and of the computed status and crop. -/
theorem stepFrame_movementMsg (tn : String) (s : NodeState) (fr : FrameInput) :
    (stepFrame tn s fr).2.movementMsg =
      (if fr.time - s.lastPublishTime ≥ 0.1 then
        some { status := (stepFrame tn s fr).2.status
               target := tn
               locked := decide ((stepFrame tn s fr).2.status ≠ Status.NO_FACE)
               faceImage := (stepFrame tn s fr).2.faceCrop }
       else none) := by
  obtain ⟨ls, tf, W, H, t⟩ := fr
  by_cases h : t - s.lastPublishTime ≥ 0.1 <;>
    cases ls <;> cases tf <;> simp [stepFrame, h]

/-! ## C2 — hold-last-status on LOCKED frames with the target absent -/

/-- C2: on a LOCKED frame with the target region absent the emitted status is
the stored `last_status` (falling back to `CENTERED` when that is `NO_FACE`)
and `last_status` is left unchanged; an episode whose visible frames produced
`[MOVE_LEFT, CENTERED]` followed by two LOCKED-with-absent-target frames
reports `CENTERED` on the third and fourth frames, not `NO_FACE`. -/
theorem C2_locked_absent_hold (tn : String) (s : NodeState) (fr : FrameInput)
    (hL : fr.lockState = LockState.LOCKED) (hf : fr.targetFace = none) :
    ((stepFrame tn s fr).2.status =
      (if s.lastStatus = Status.NO_FACE then Status.CENTERED
       else s.lastStatus)) ∧
    (stepFrame tn s fr).1.lastStatus = s.lastStatus ∧
    ((runFrames "andrew" initState
        [⟨LockState.LOCKED, some ⟨10, 0, 20, 10⟩, 100, 100, 0⟩,
         ⟨LockState.LOCKED, some ⟨45, 0, 55, 10⟩, 100, 100, 0⟩,
         ⟨LockState.LOCKED, none, 100, 100, 0⟩,
         ⟨LockState.LOCKED, none, 100, 100, 0⟩]).2.map FrameOutput.status =
      [Status.MOVE_LEFT, Status.CENTERED, Status.CENTERED, Status.CENTERED]) := by
  obtain h := stepFrame_status_locked_absent tn s fr hL hf
  exact ⟨h.1, h.2.1, by norm_num [runFrames, stepFrame, initState]⟩

/-- C2 witness: with `last_status = MOVE_LEFT`, a LOCKED frame with the
target absent re-emits `MOVE_LEFT` and keeps `last_status` intact. -/
theorem C2_locked_absent_hold_witness :
    (stepFrame "andrew" ⟨Status.MOVE_LEFT, true, 0, 0⟩
        ⟨LockState.LOCKED, none, 100, 100, 0⟩).2.status =
      (if (Status.MOVE_LEFT : Status) = Status.NO_FACE then Status.CENTERED
       else Status.MOVE_LEFT) := by
  exact (C2_locked_absent_hold "andrew" ⟨Status.MOVE_LEFT, true, 0, 0⟩
    ⟨LockState.LOCKED, none, 100, 100, 0⟩ rfl rfl).1

/-! ## C7 — NO_FACE exactly on SEARCHING frames -/

/-- C7: for every controller state, a frame's emitted status is `NO_FACE`
if and only if the lock phase is `SEARCHING`; no LOCKED frame, with or
without a visible target region, yields `NO_FACE`. -/
theorem C7_no_face_iff_searching (tn : String) (s : NodeState)
    (fr : FrameInput) :
    (stepFrame tn s fr).2.status = Status.NO_FACE ↔
      fr.lockState = LockState.SEARCHING := by
  obtain ⟨ls, tf, W, H, t⟩ := fr
  obtain ⟨ls', sn, lp, lh⟩ := s
  cases ls with
  | SEARCHING => cases tf <;> simp [stepFrame]
  | LOCKED =>
      cases tf with
      | none =>
          simp only [stepFrame]
          constructor
          · intro h
            split_ifs at h with hls
            exact (hls h).elim
          · intro h; exact LockState.noConfusion h
      | some f =>
          simp only [stepFrame]
          constructor
          · intro h
            split_ifs at h
          · intro h; exact LockState.noConfusion h

/-! ## C8 — the `locked` payload field -/

/-- C8: every published movement message has `locked = true` if and only if
its status is not `NO_FACE`, and its status is the one the decision engine
computed on that frame. -/
theorem C8_locked_iff_not_noface (tn : String) (s : NodeState)
    (fr : FrameInput) (m : MovementMsg)
    (h : (stepFrame tn s fr).2.movementMsg = some m) :
    (m.locked = true ↔ m.status ≠ Status.NO_FACE) ∧
    m.status = (stepFrame tn s fr).2.status := by
  rw [stepFrame_movementMsg] at h
  split at h
  · obtain rfl : _ = m := Option.some.inj h
    exact ⟨by simp [decide_eq_true_iff], rfl⟩
  · exact absurd h (Option.noConfusion)

/-- C8 witness: on a SEARCHING frame admitted by the rate gate, the published
message carries status `NO_FACE` and `locked = false`. -/
theorem C8_locked_iff_not_noface_witness :
    ((⟨Status.NO_FACE, "andrew", false, none⟩ : MovementMsg).locked = true ↔
      (⟨Status.NO_FACE, "andrew", false, none⟩ : MovementMsg).status ≠
        Status.NO_FACE) ∧
    (⟨Status.NO_FACE, "andrew", false, none⟩ : MovementMsg).status =
      (stepFrame "andrew" initState
        ⟨LockState.SEARCHING, none, 100, 100, 1⟩).2.status := by
  exact C8_locked_iff_not_noface "andrew" initState
    ⟨LockState.SEARCHING, none, 100, 100, 1⟩
    ⟨Status.NO_FACE, "andrew", false, none⟩ (by norm_num [stepFrame, initState])

/-! ## C3 — at most one snapshot per lock episode -/

/-- On a SEARCHING frame no crop is produced and the snapshot flag is reset. -/
theorem step_searching_crop (tn : String) (s : NodeState) (fr : FrameInput)
    (h : fr.lockState = LockState.SEARCHING) :
    (stepFrame tn s fr).2.faceCrop = none ∧
    (stepFrame tn s fr).1.snapshotSent = false := by
  obtain ⟨ls, tf, W, H, t⟩ := fr
  cases h
  exact ⟨rfl, rfl⟩

/-- On a LOCKED frame with a visible target the crop is produced exactly when
the snapshot flag was still clear, and the flag is set afterwards. -/
theorem step_visible_crop (tn : String) (s : NodeState) (fr : FrameInput)
    (f : Face) (hL : fr.lockState = LockState.LOCKED)
    (hf : fr.targetFace = some f) :
    (stepFrame tn s fr).2.faceCrop =
      (if s.snapshotSent then none else some (cropRect f fr.W fr.H)) ∧
    (stepFrame tn s fr).1.snapshotSent = true := by
  obtain ⟨ls, tf, W, H, t⟩ := fr
  cases hL; cases hf
  constructor
  · by_cases h : s.snapshotSent <;> simp [stepFrame, h]
  · rfl

/-- On a LOCKED frame with the target absent no crop is produced and the
snapshot flag is unchanged. -/
theorem step_absent_crop (tn : String) (s : NodeState) (fr : FrameInput)
    (hL : fr.lockState = LockState.LOCKED) (hf : fr.targetFace = none) :
    (stepFrame tn s fr).2.faceCrop = none ∧
    (stepFrame tn s fr).1.snapshotSent = s.snapshotSent := by
  obtain ⟨ls, tf, W, H, t⟩ := fr
  cases hL; cases hf
  exact ⟨rfl, rfl⟩

theorem cropCount_nil : cropCount [] = 0 := rfl

theorem cropCount_cons (o : FrameOutput) (l : List FrameOutput) :
    cropCount (o :: l) =
      (if o.faceCrop.isSome then 1 else 0) + cropCount l := by
  simp only [cropCount, List.filter_cons]
  split
  · simp; omega
  · simp

theorem runFrames_cons (tn : String) (s : NodeState) (fr : FrameInput)
    (rest : List FrameInput) :
    runFrames tn s (fr :: rest) =
      ((runFrames tn (stepFrame tn s fr).1 rest).1,
       (stepFrame tn s fr).2 :: (runFrames tn (stepFrame tn s fr).1 rest).2) :=
  rfl

/-- Within a run of LOCKED frames, the number of produced crops is bounded by
one, and by zero when the snapshot flag is already set at entry. -/
theorem cropCount_locked_run (tn : String) :
    ∀ (frames : List FrameInput) (s : NodeState),
      (∀ fr ∈ frames, fr.lockState = LockState.LOCKED) →
      cropCount (runFrames tn s frames).2 ≤
        (if s.snapshotSent then 0 else 1) := by
  intro frames
  induction frames with
  | nil => intro s _; simp [runFrames, cropCount_nil]
  | cons fr rest ih =>
      intro s hall
      have hL : fr.lockState = LockState.LOCKED := hall fr (by simp)
      have hrest : ∀ g ∈ rest, g.lockState = LockState.LOCKED := by
        intro g hg; exact hall g (by simp [hg])
      rw [runFrames_cons, cropCount_cons]
      cases htf : fr.targetFace with
      | some f =>
          obtain ⟨hcrop, hsent⟩ := step_visible_crop tn s fr f hL htf
          have hrest' := ih (stepFrame tn s fr).1 hrest
          rw [hsent] at hrest'
          simp only [if_pos] at hrest'
          cases hsn : s.snapshotSent with
          | true =>
              rw [hcrop]
              simp only [hsn, if_pos, Option.isSome_none, Bool.false_eq_true,
                if_false]
              omega
          | false =>
              rw [hcrop]
              simp only [hsn, Bool.false_eq_true, if_false, Option.isSome_some,
                if_pos]
              omega
      | none =>
          obtain ⟨hcrop, hsent⟩ := step_absent_crop tn s fr hL htf
          have hrest' := ih (stepFrame tn s fr).1 hrest
          rw [hsent] at hrest'
          rw [hcrop]
          simpa using hrest'

/-- C3: the snapshot gate yields at most one crop per lock episode and none
while SEARCHING; the flag is set exactly when the crop is produced, is
cleared by a SEARCHING frame, and a SEARCHING frame followed by a
LOCKED-with-visible-target frame yields exactly one crop for the new
episode. -/
theorem C3_snapshot_per_episode (tn : String) (s : NodeState)
    (frames : List FrameInput) (fr fr1 fr2 : FrameInput) (f : Face) :
    ((∀ g ∈ frames, g.lockState = LockState.LOCKED) →
      cropCount (runFrames tn s frames).2 ≤
        (if s.snapshotSent then 0 else 1)) ∧
    (fr.lockState = LockState.SEARCHING →
      (stepFrame tn s fr).2.faceCrop = none ∧
      (stepFrame tn s fr).1.snapshotSent = false) ∧
    (((stepFrame tn s fr).1.snapshotSent = true ∧ s.snapshotSent = false) ↔
      (stepFrame tn s fr).2.faceCrop.isSome = true) ∧
    (fr1.lockState = LockState.SEARCHING →
      fr2.lockState = LockState.LOCKED → fr2.targetFace = some f →
      cropCount (runFrames tn s [fr1, fr2]).2 = 1) := by
  refine ⟨fun h => cropCount_locked_run tn frames s h,
    fun h => step_searching_crop tn s fr h, ?_, ?_⟩
  · obtain ⟨ls, tf, W, H, t⟩ := fr
    cases ls with
    | SEARCHING =>
        obtain ⟨h1, h2⟩ := step_searching_crop tn s ⟨LockState.SEARCHING, tf, W, H, t⟩ rfl
        rw [h1, h2]
        simp
    | LOCKED =>
        cases tf with
        | some f' =>
            obtain ⟨h1, h2⟩ := step_visible_crop tn s
              ⟨LockState.LOCKED, some f', W, H, t⟩ f' rfl rfl
            rw [h1, h2]
            cases hsn : s.snapshotSent <;> simp
        | none =>
            obtain ⟨h1, h2⟩ := step_absent_crop tn s
              ⟨LockState.LOCKED, none, W, H, t⟩ rfl rfl
            rw [h1, h2]
            cases hsn : s.snapshotSent <;> simp
  · intro h1 h2 h3
    rw [runFrames_cons, cropCount_cons, runFrames_cons, cropCount_cons]
    obtain ⟨hc1, hs1⟩ := step_searching_crop tn s fr1 h1
    obtain ⟨hc2, _⟩ := step_visible_crop tn (stepFrame tn s fr1).1 fr2 f h2 h3
    rw [hc1, hc2, hs1]
    simp [runFrames, cropCount_nil]

/-- C3 witness: from a state whose snapshot flag is set, a SEARCHING frame
followed by a LOCKED frame with a visible target yields exactly one crop. -/
theorem C3_snapshot_per_episode_witness :
    cropCount (runFrames "andrew" ⟨Status.CENTERED, true, 0, 0⟩
      [⟨LockState.SEARCHING, none, 100, 100, 0⟩,
       ⟨LockState.LOCKED, some ⟨10, 0, 20, 10⟩, 100, 100, 0⟩]).2 = 1 := by
  exact (C3_snapshot_per_episode "andrew" ⟨Status.CENTERED, true, 0, 0⟩ []
    ⟨LockState.SEARCHING, none, 100, 100, 0⟩
    ⟨LockState.SEARCHING, none, 100, 100, 0⟩
    ⟨LockState.LOCKED, some ⟨10, 0, 20, 10⟩, 100, 100, 0⟩
    ⟨10, 0, 20, 10⟩).2.2.2 rfl rfl rfl

/-! ## C4 — 10 Hz movement rate gate -/

/-- The admission decision and timestamp update of the movement rate gate on
one frame: admitted iff `now - last_publish_time ≥ 0.1`, and the stored
timestamp becomes `now` exactly on admission. -/
theorem step_mov_gate (tn : String) (s : NodeState) (fr : FrameInput) :
    ((stepFrame tn s fr).2.movementMsg.isSome ↔
      fr.time - s.lastPublishTime ≥ 0.1) ∧
    (stepFrame tn s fr).1.lastPublishTime =
      (if fr.time - s.lastPublishTime ≥ 0.1 then fr.time
       else s.lastPublishTime) := by
  obtain ⟨ls, tf, W, H, t⟩ := fr
  by_cases hc : t - s.lastPublishTime ≥ 0.1 <;>
    cases ls <;> cases tf <;> simp [stepFrame, hc]

/-- The movement gate in isolation: fold the admission rule of lines 187-192
over a list of frame times, counting admitted publishes. -/
def admitCount : ℚ → List ℚ → ℕ
  | _, [] => 0
  | lp, t :: ts => if t - lp ≥ 0.1 then admitCount t ts + 1 else admitCount lp ts

theorem admitCount_cons (lp t : ℚ) (ts : List ℚ) :
    admitCount lp (t :: ts) =
      (if t - lp ≥ 0.1 then admitCount t ts + 1 else admitCount lp ts) := rfl

theorem admitCount_eq_zero :
    ∀ (ts : List ℚ) (lp : ℚ), (∀ t ∈ ts, t < lp + 0.1) →
      admitCount lp ts = 0 := by
  intro ts
  induction ts with
  | nil => intro lp _; rfl
  | cons t ts ih =>
      intro lp h
      have ht : t < lp + 0.1 := h t (by simp)
      rw [admitCount_cons, if_neg (by linarith)]
      exact ih lp (fun u hu => h u (by simp [hu]))

theorem admitCount_le_one :
    ∀ (ts : List ℚ) (lp : ℚ), (∀ t ∈ ts, t < lp + 0.2) →
      admitCount lp ts ≤ 1 := by
  intro ts
  induction ts with
  | nil => intro lp _; simp [admitCount]
  | cons t ts ih =>
      intro lp h
      have ht : t < lp + 0.2 := h t (by simp)
      rw [admitCount_cons]
      by_cases hc : t - lp ≥ 0.1
      · rw [if_pos hc]
        have hz : admitCount t ts = 0 := by
          refine admitCount_eq_zero ts t (fun u hu => ?_)
          have := h u (by simp [hu])
          linarith
        omega
      · rw [if_neg hc]
        exact ih lp (fun u hu => h u (by simp [hu]))

theorem admitCount_le_two :
    ∀ (ts : List ℚ) (lp a : ℚ), (∀ t ∈ ts, a ≤ t ∧ t ≤ a + 0.19) →
      admitCount lp ts ≤ 2 := by
  intro ts
  induction ts with
  | nil => intro lp a _; simp [admitCount]
  | cons t ts ih =>
      intro lp a h
      obtain ⟨ht1, ht2⟩ := h t (by simp)
      rw [admitCount_cons]
      by_cases hc : t - lp ≥ 0.1
      · rw [if_pos hc]
        have hle : admitCount t ts ≤ 1 := by
          refine admitCount_le_one ts t (fun u hu => ?_)
          obtain ⟨hu1, hu2⟩ := h u (by simp [hu])
          linarith
        omega
      · rw [if_neg hc]
        exact ih lp a (fun u hu => h u (by simp [hu]))

theorem movCount_nil : movCount [] = 0 := rfl

theorem movCount_cons (o : FrameOutput) (l : List FrameOutput) :
    movCount (o :: l) =
      (if o.movementMsg.isSome then 1 else 0) + movCount l := by
  simp only [movCount, List.filter_cons]
  split
  · simp; omega
  · simp

/-- The movement publishes of a trace are exactly the admissions of the rate
gate run over the frame times alone. -/
theorem movCount_eq_admitCount (tn : String) :
    ∀ (frames : List FrameInput) (s : NodeState),
      movCount (runFrames tn s frames).2 =
        admitCount s.lastPublishTime (frames.map FrameInput.time) := by
  intro frames
  induction frames with
  | nil => intro s; rfl
  | cons fr rest ih =>
      intro s
      rw [runFrames_cons, movCount_cons, List.map_cons, admitCount_cons]
      obtain ⟨h1, h2⟩ := step_mov_gate tn s fr
      by_cases hc : fr.time - s.lastPublishTime ≥ 0.1
      · have hs : (stepFrame tn s fr).2.movementMsg.isSome = true := by
          rw [h1]; exact hc
        rw [hs, if_pos hc, ih, h2, if_pos hc]
        simp [Nat.add_comm]
      · have hs : (stepFrame tn s fr).2.movementMsg.isSome = false := by
          rw [← Bool.not_eq_true, h1]; exact hc
        rw [hs, if_neg hc, ih, h2, if_neg hc]
        simp

/-- C4: a movement publish is admitted iff `now - last_publish_time ≥ 0.1 s`,
admission stores `now`; and over 20 frames arriving every 10 ms (a 200 ms
window) at most 2 movement publishes are admitted. -/
theorem C4_movement_rate (tn : String) (s : NodeState) (fr : FrameInput)
    (a : ℚ) (frames : List FrameInput) :
    ((stepFrame tn s fr).2.movementMsg.isSome ↔
      fr.time - s.lastPublishTime ≥ 0.1) ∧
    (fr.time - s.lastPublishTime ≥ 0.1 →
      (stepFrame tn s fr).1.lastPublishTime = fr.time) ∧
    (¬ fr.time - s.lastPublishTime ≥ 0.1 →
      (stepFrame tn s fr).1.lastPublishTime = s.lastPublishTime) ∧
    (frames.map FrameInput.time =
        (List.range 20).map (fun (k : ℕ) => a + (k : ℚ) / 100) →
      movCount (runFrames tn s frames).2 ≤ 2) := by
  obtain ⟨h1, h2⟩ := step_mov_gate tn s fr
  refine ⟨h1, fun hc => by rw [h2, if_pos hc],
    fun hc => by rw [h2, if_neg hc], fun htimes => ?_⟩
  rw [movCount_eq_admitCount, htimes]
  refine admitCount_le_two _ s.lastPublishTime a (fun t ht => ?_)
  obtain ⟨k, hk, rfl⟩ := List.mem_map.mp ht
  have hk19 : (k : ℚ) ≤ 19 := by
    have h20 : k < 20 := by simpa using hk
    exact_mod_cast Nat.le_of_lt_succ h20
  have hk0 : (0 : ℚ) ≤ (k : ℚ) := Nat.cast_nonneg k
  constructor
  · linarith
  · have : (k : ℚ) / 100 ≤ 19 / 100 := by linarith
    have h019 : (0.19 : ℚ) = 19 / 100 := by norm_num
    linarith

/-- C4 witness: starting from the initial state, 20 SEARCHING frames at times
`0, 0.01, …, 0.19` admit at most 2 movement publishes. -/
theorem C4_movement_rate_witness :
    movCount (runFrames "andrew" initState
      ((List.range 20).map
        (fun (k : ℕ) => ⟨LockState.SEARCHING, none, 100, 100, (0 : ℚ) + (k : ℚ) / 100⟩))).2 ≤ 2 := by
  refine (C4_movement_rate "andrew" initState
    ⟨LockState.SEARCHING, none, 100, 100, 0⟩ 0
    ((List.range 20).map
      (fun (k : ℕ) => ⟨LockState.SEARCHING, none, 100, 100, (0 : ℚ) + (k : ℚ) / 100⟩))).2.2.2 ?_
  simp [List.map_map, Function.comp]

/-! ## C5 — heartbeat on connect and every 5 seconds -/

/-- The heartbeat payload built by `publish_heartbeat` (lines 110-116). -/
structure HeartbeatMsg where
  node : String
  status : String
  timestamp : ℚ
deriving DecidableEq, Repr

/-- `publish_heartbeat` (lines 110-116): one heartbeat message with the fixed
node id and status. -/
def publish_heartbeat (now : ℚ) : HeartbeatMsg :=
  { node := "pc_vision", status := "ONLINE", timestamp := now }

/-- `on_connect` (lines 89-91): called once upon a successful transport
connection; publishes a single heartbeat and touches no controller field
(in particular `last_heartbeat` is left as it was). -/
def on_connect (s : NodeState) (now : ℚ) : NodeState × List HeartbeatMsg :=
  (s, [publish_heartbeat now])

/-- The admission decision and timestamp update of the heartbeat gate on one
frame: admitted iff `now - last_heartbeat > 5`, and the stored timestamp
becomes `now` exactly on admission. -/
theorem step_hb_gate (tn : String) (s : NodeState) (fr : FrameInput) :
    ((stepFrame tn s fr).2.heartbeat = true ↔
      fr.time - s.lastHeartbeat > 5) ∧
    (stepFrame tn s fr).1.lastHeartbeat =
      (if fr.time - s.lastHeartbeat > 5 then fr.time
       else s.lastHeartbeat) := by
  obtain ⟨ls, tf, W, H, t⟩ := fr
  by_cases hc : t - s.lastHeartbeat > 5 <;>
    cases ls <;> cases tf <;> simp [stepFrame, hc]

theorem hbCount_cons (o : FrameOutput) (l : List FrameOutput) :
    hbCount (o :: l) = (if o.heartbeat then 1 else 0) + hbCount l := by
  simp only [hbCount, List.filter_cons]
  split
  · simp; omega
  · simp

theorem hbCount_append (l1 l2 : List FrameOutput) :
    hbCount (l1 ++ l2) = hbCount l1 + hbCount l2 := by
  simp [hbCount, List.filter_append]

theorem runFrames_append (tn : String) :
    ∀ (l1 l2 : List FrameInput) (s : NodeState),
      runFrames tn s (l1 ++ l2) =
        ((runFrames tn (runFrames tn s l1).1 l2).1,
         (runFrames tn s l1).2 ++ (runFrames tn (runFrames tn s l1).1 l2).2) := by
  intro l1
  induction l1 with
  | nil => intro l2 s; simp [runFrames]
  | cons fr rest ih =>
      intro l2 s
      rw [List.cons_append, runFrames_cons, runFrames_cons, ih]
      rfl

/-- While every frame time is at most 5 and the stored heartbeat timestamp is
still its initial value 0, the loop publishes no heartbeat and the timestamp
stays 0. -/
theorem hb_quiet_run (tn : String) :
    ∀ (frames : List FrameInput) (s : NodeState),
      s.lastHeartbeat = 0 → (∀ fr ∈ frames, fr.time ≤ 5) →
      hbCount (runFrames tn s frames).2 = 0 ∧
      (runFrames tn s frames).1.lastHeartbeat = 0 := by
  intro frames
  induction frames with
  | nil => intro s h0 _; exact ⟨rfl, h0⟩
  | cons fr rest ih =>
      intro s h0 hall
      have ht : fr.time ≤ 5 := hall fr (by simp)
      obtain ⟨hgate, hupd⟩ := step_hb_gate tn s fr
      have hno : ¬ fr.time - s.lastHeartbeat > 5 := by rw [h0]; linarith
      have hhb : (stepFrame tn s fr).2.heartbeat = false := by
        rw [← Bool.not_eq_true, hgate]; exact hno
      have h0' : (stepFrame tn s fr).1.lastHeartbeat = 0 := by
        rw [hupd, if_neg hno]; exact h0
      obtain ⟨ih1, ih2⟩ := ih (stepFrame tn s fr).1 h0'
        (fun g hg => hall g (by simp [hg]))
      rw [runFrames_cons, hbCount_cons, hhb]
      exact ⟨by simpa using ih1, ih2⟩

/-- C5: `on_connect` publishes exactly one heartbeat and leaves the state
untouched; the loop admits a heartbeat iff `now - last_heartbeat > 5`; and
from the initial timer, frames up to time 5 publish no heartbeat while a
subsequent frame later than time 5 publishes exactly one more. -/
theorem C5_heartbeat_schedule (tn : String) (s : NodeState) (fr : FrameInput)
    (now : ℚ) (frames : List FrameInput) (fr' : FrameInput) :
    ((on_connect s now).2.length = 1 ∧ (on_connect s now).1 = s) ∧
    ((stepFrame tn s fr).2.heartbeat = true ↔
      fr.time - s.lastHeartbeat > 5) ∧
    (s.lastHeartbeat = 0 → (∀ g ∈ frames, g.time ≤ 5) →
      hbCount (runFrames tn s frames).2 = 0) ∧
    (s.lastHeartbeat = 0 → (∀ g ∈ frames, g.time ≤ 5) → fr'.time > 5 →
      hbCount (runFrames tn s (frames ++ [fr'])).2 = 1) := by
  refine ⟨⟨rfl, rfl⟩, (step_hb_gate tn s fr).1,
    fun h0 hall => (hb_quiet_run tn frames s h0 hall).1,
    fun h0 hall hlate => ?_⟩
  obtain ⟨hq, h0'⟩ := hb_quiet_run tn frames s h0 hall
  rw [runFrames_append, hbCount_append, hq]
  set s1 := (runFrames tn s frames).1
  obtain ⟨hgate, _⟩ := step_hb_gate tn s1 fr'
  have hyes : (stepFrame tn s1 fr').2.heartbeat = true := by
    rw [hgate, h0']; linarith
  rw [runFrames_cons, hbCount_cons, hyes]
  simp [runFrames, hbCount]

/-- C5 witness: from the initial state, frames at times 1 and 3 publish no
heartbeat and a frame at time 6 publishes exactly one. -/
theorem C5_heartbeat_schedule_witness :
    hbCount (runFrames "andrew" initState
      ([⟨LockState.SEARCHING, none, 100, 100, 1⟩,
        ⟨LockState.SEARCHING, none, 100, 100, 3⟩] ++
       [⟨LockState.SEARCHING, none, 100, 100, 6⟩])).2 = 1 := by
  refine (C5_heartbeat_schedule "andrew" initState
    ⟨LockState.SEARCHING, none, 100, 100, 1⟩ 0
    [⟨LockState.SEARCHING, none, 100, 100, 1⟩,
     ⟨LockState.SEARCHING, none, 100, 100, 3⟩]
    ⟨LockState.SEARCHING, none, 100, 100, 6⟩).2.2.2 rfl ?_ (by norm_num)
  intro g hg
  simp only [List.mem_cons, List.not_mem_nil, or_false] at hg
  rcases hg with rfl | rfl <;> norm_num

/-! ## C6 — camera acquisition fallback -/

/-- The loop of `_open_any_camera` (lines 43-47) as written in the source:
for each entry of `indices` it constructs `cv2.VideoCapture(0)` — probing
device 0 regardless of the index currently being tried — and returns the
first capture that opened. `opens i` says whether a capture on device `i`
would open. -/
def open_any_camera_loop (opens : ℕ → Bool) : List ℕ → Option ℕ
  | [] => none
  | _idx :: rest =>
      if opens 0 then some 0 else open_any_camera_loop opens rest

/-- `_open_any_camera` (lines 38-48): returns the first opened capture, or
raises `RuntimeError` carrying the full attempted index list. -/
def open_any_camera (opens : ℕ → Bool) (indices : List ℕ) :
    Except (List ℕ) ℕ :=
  match open_any_camera_loop opens indices with
  | some d => Except.ok d
  | none => Except.error indices

/-- The per-index probing the docstring of `_open_any_camera` ("try several
camera indices") and the spec describe: probe the index currently being
tried. -/
def open_any_camera_intended_loop (opens : ℕ → Bool) : List ℕ → Option ℕ
  | [] => none
  | idx :: rest =>
      if opens idx then some idx else open_any_camera_intended_loop opens rest

/-- Per-index probing variant of `_open_any_camera`. -/
def open_any_camera_intended (opens : ℕ → Bool) (indices : List ℕ) :
    Except (List ℕ) ℕ :=
  match open_any_camera_intended_loop opens indices with
  | some d => Except.ok d
  | none => Except.error indices

/-- C6: on a machine where device 0 does not open but device 1 does, the
source's `_open_any_camera` fails over the whole default index list
`(0, 1, 2, 3)` — it probes `cv2.VideoCapture(0)` on every iteration — while
the per-index probing that the claim (and the function's own docstring)
describes returns device 1; when nothing opens, the error does carry the
full attempted index list. -/
theorem C6_camera_probe_bug :
    open_any_camera (fun i => i == 1) [0, 1, 2, 3] =
      Except.error [0, 1, 2, 3] ∧
    open_any_camera_intended (fun i => i == 1) [0, 1, 2, 3] =
      Except.ok 1 ∧
    open_any_camera (fun _ => false) [0, 1, 2, 3] =
      Except.error [0, 1, 2, 3] ∧
    open_any_camera_intended (fun _ => false) [0, 1, 2, 3] =
      Except.error [0, 1, 2, 3] := by
  refine ⟨rfl, rfl, rfl, rfl⟩

/-! ## C10 — a rejected capture frame discards the episode's snapshot -/

/-- C10: a published message carries exactly the crop captured on its own
frame, a capture happens only while the snapshot flag is clear, and in the
concrete episode below the capture frame (at `t = 0.05`) is rejected by the
10 Hz gate, the flag is nevertheless set, and no later message of the
episode carries an image — the snapshot is discarded, never published. -/
theorem C10_snapshot_discard (tn : String) (s : NodeState) (fr : FrameInput)
    (m : MovementMsg) :
    ((stepFrame tn s fr).2.movementMsg = some m →
      m.faceImage = (stepFrame tn s fr).2.faceCrop) ∧
    ((stepFrame tn s fr).2.faceCrop.isSome = true →
      s.snapshotSent = false) ∧
    ((runFrames "andrew" initState
        [⟨LockState.LOCKED, some ⟨10, 0, 20, 10⟩, 100, 100, 1/20⟩,
         ⟨LockState.LOCKED, some ⟨10, 0, 20, 10⟩, 100, 100, 3/20⟩,
         ⟨LockState.LOCKED, some ⟨10, 0, 20, 10⟩, 100, 100, 3/10⟩]).2.map
        (fun o => o.movementMsg.isSome) = [false, true, true]) ∧
    ((runFrames "andrew" initState
        [⟨LockState.LOCKED, some ⟨10, 0, 20, 10⟩, 100, 100, 1/20⟩,
         ⟨LockState.LOCKED, some ⟨10, 0, 20, 10⟩, 100, 100, 3/20⟩,
         ⟨LockState.LOCKED, some ⟨10, 0, 20, 10⟩, 100, 100, 3/10⟩]).2.map
        (fun o => o.faceCrop.isSome) = [true, false, false]) ∧
    ((runFrames "andrew" initState
        [⟨LockState.LOCKED, some ⟨10, 0, 20, 10⟩, 100, 100, 1/20⟩,
         ⟨LockState.LOCKED, some ⟨10, 0, 20, 10⟩, 100, 100, 3/20⟩,
         ⟨LockState.LOCKED, some ⟨10, 0, 20, 10⟩, 100, 100, 3/10⟩]).2.map
        (fun o => o.movementMsg.map MovementMsg.faceImage) =
      [none, some none, some none]) ∧
    (runFrames "andrew" initState
        [⟨LockState.LOCKED, some ⟨10, 0, 20, 10⟩, 100, 100, 1/20⟩,
         ⟨LockState.LOCKED, some ⟨10, 0, 20, 10⟩, 100, 100, 3/20⟩,
         ⟨LockState.LOCKED, some ⟨10, 0, 20, 10⟩, 100, 100, 3/10⟩]).1.snapshotSent
      = true := by
  refine ⟨?_, ?_, ?_, ?_, ?_, ?_⟩
  · intro h
    rw [stepFrame_movementMsg] at h
    split at h
    · obtain rfl : _ = m := Option.some.inj h
      rfl
    · exact absurd h (Option.noConfusion)
  · intro h
    obtain ⟨ls, tf, W, H, t⟩ := fr
    cases ls with
    | SEARCHING =>
        rw [(step_searching_crop tn s ⟨LockState.SEARCHING, tf, W, H, t⟩ rfl).1] at h
        exact absurd h (by simp)
    | LOCKED =>
        cases tf with
        | none =>
            rw [(step_absent_crop tn s ⟨LockState.LOCKED, none, W, H, t⟩ rfl rfl).1] at h
            exact absurd h (by simp)
        | some f =>
            rw [(step_visible_crop tn s ⟨LockState.LOCKED, some f, W, H, t⟩ f rfl rfl).1] at h
            by_cases hsn : s.snapshotSent
            · rw [if_pos hsn] at h
              exact absurd h (by simp)
            · simpa using hsn
  · norm_num [runFrames, stepFrame, initState]
  · norm_num [runFrames, stepFrame, initState]
  · norm_num [runFrames, stepFrame, initState]
  · norm_num [runFrames, stepFrame, initState]

/-- C10 witness: on the rejected capture frame at `t = 0.05` the controller
captures a crop even though no message is published, hence from a clear
snapshot flag. -/
theorem C10_snapshot_discard_witness :
    (stepFrame "andrew" initState
      ⟨LockState.LOCKED, some ⟨10, 0, 20, 10⟩, 100, 100, 1/20⟩).2.faceCrop.isSome = true ∧
    initState.snapshotSent = false := by
  have h := (C10_snapshot_discard "andrew" initState
    ⟨LockState.LOCKED, some ⟨10, 0, 20, 10⟩, 100, 100, 1/20⟩
    ⟨Status.MOVE_LEFT, "andrew", true, none⟩).2.1
  have hc : (stepFrame "andrew" initState
      ⟨LockState.LOCKED, some ⟨10, 0, 20, 10⟩, 100, 100, 1/20⟩).2.faceCrop.isSome = true := by
    norm_num [stepFrame, initState]
  exact ⟨hc, h hc⟩

/-! ## C9 — movement-message codec round-trip

`publish_movement` (lines 93-107) assembles the payload dict and base64-text
encodes the JPEG buffer into its `face_image` field. The JPEG buffer itself
is produced by the external `cv2.imencode` and is treated as an opaque byte
string; base64 is embedded here concretely (RFC 4648 with `=` padding, as
`base64.b64encode` produces). Bytes are naturals below 256. -/

/-- The base64 alphabet, `A-Z a-z 0-9 + /`, indexed 0-63. -/
def b64chars : List Char :=
  ['A','B','C','D','E','F','G','H','I','J','K','L','M',
   'N','O','P','Q','R','S','T','U','V','W','X','Y','Z',
   'a','b','c','d','e','f','g','h','i','j','k','l','m',
   'n','o','p','q','r','s','t','u','v','w','x','y','z',
   '0','1','2','3','4','5','6','7','8','9','+','/']

/-- Character for a six-bit group. -/
def b64char (n : ℕ) : Char := b64chars.getD n '='

/-- Six-bit value of an alphabet character. -/
def b64val (c : Char) : ℕ := b64chars.indexOf c

theorem b64val_b64char : ∀ n < 64, b64val (b64char n) = n := by decide

theorem b64char_ne_pad : ∀ n < 64, b64char n ≠ '=' := by decide

/-- Encode bytes in three-byte groups into four characters each, padding a
final group of one or two bytes with `=` as `base64.b64encode` does. -/
def b64encodeGroups : List ℕ → List Char
  | [] => []
  | [a] => [b64char (a / 4), b64char (a % 4 * 16), '=', '=']
  | [a, b] => [b64char (a / 4), b64char (a % 4 * 16 + b / 16),
               b64char (b % 16 * 4), '=']
  | a :: b :: c :: rest =>
      b64char (a / 4) :: b64char (a % 4 * 16 + b / 16) ::
      b64char (b % 16 * 4 + c / 64) :: b64char (c % 64) ::
      b64encodeGroups rest

/-- base64-encode a byte string to text. -/
def b64encode (bs : List ℕ) : List Char := b64encodeGroups bs

/-- Decode four-character groups back to three bytes each; a final group of
two or three value characters (after padding removal) yields one or two
bytes. -/
def b64decodeGroups : List Char → List ℕ
  | [c1, c2] => [b64val c1 * 4 + b64val c2 / 16]
  | [c1, c2, c3] =>
      [b64val c1 * 4 + b64val c2 / 16,
       b64val c2 % 16 * 16 + b64val c3 / 4]
  | c1 :: c2 :: c3 :: c4 :: rest =>
      (b64val c1 * 4 + b64val c2 / 16) ::
      (b64val c2 % 16 * 16 + b64val c3 / 4) ::
      (b64val c3 % 4 * 64 + b64val c4) ::
      b64decodeGroups rest
  | _ => []

/-- base64-decode a text to its byte string: drop the `=` padding, then
decode the value characters groupwise. -/
def b64decode (s : List Char) : List ℕ :=
  b64decodeGroups (s.filter (fun c => c ≠ '='))

theorem b64_roundtrip_aux :
    ∀ (n : ℕ) (bs : List ℕ), bs.length ≤ n → (∀ b ∈ bs, b < 256) →
      b64decode (b64encode bs) = bs := by
  intro n
  induction n with
  | zero =>
      intro bs hlen _
      rw [Nat.le_zero, List.length_eq_zero] at hlen
      subst hlen
      rfl
  | succ n ih =>
      intro bs hlen hb
      match bs with
      | [] => rfl
      | [a] =>
          have ha : a < 256 := hb a (by simp)
          have n1 := b64char_ne_pad (a / 4) (by omega)
          have n2 := b64char_ne_pad (a % 4 * 16) (by omega)
          have v1 := b64val_b64char (a / 4) (by omega)
          have v2 := b64val_b64char (a % 4 * 16) (by omega)
          have hfil : (b64encode [a]).filter (fun c => c ≠ '=') =
              [b64char (a / 4), b64char (a % 4 * 16)] := by
            simp [b64encode, b64encodeGroups, n1, n2]
          rw [b64decode, hfil]
          simp only [b64decodeGroups, v1, v2, List.cons.injEq, and_true]
          omega
      | [a, b] =>
          have ha : a < 256 := hb a (by simp)
          have hb2 : b < 256 := hb b (by simp)
          have n1 := b64char_ne_pad (a / 4) (by omega)
          have n2 := b64char_ne_pad (a % 4 * 16 + b / 16) (by omega)
          have n3 := b64char_ne_pad (b % 16 * 4) (by omega)
          have v1 := b64val_b64char (a / 4) (by omega)
          have v2 := b64val_b64char (a % 4 * 16 + b / 16) (by omega)
          have v3 := b64val_b64char (b % 16 * 4) (by omega)
          have hfil : (b64encode [a, b]).filter (fun c => c ≠ '=') =
              [b64char (a / 4), b64char (a % 4 * 16 + b / 16),
               b64char (b % 16 * 4)] := by
            simp [b64encode, b64encodeGroups, n1, n2, n3]
          rw [b64decode, hfil]
          simp only [b64decodeGroups, v1, v2, v3, List.cons.injEq, and_true]
          exact ⟨by omega, by omega⟩
      | a :: b :: c :: rest =>
          have ha : a < 256 := hb a (by simp)
          have hb2 : b < 256 := hb b (by simp)
          have hc : c < 256 := hb c (by simp)
          have hrest : ∀ x ∈ rest, x < 256 := by
            intro x hx; exact hb x (by simp [hx])
          have hlen2 : rest.length ≤ n := by
            simp only [List.length_cons] at hlen; omega
          have n1 := b64char_ne_pad (a / 4) (by omega)
          have n2 := b64char_ne_pad (a % 4 * 16 + b / 16) (by omega)
          have n3 := b64char_ne_pad (b % 16 * 4 + c / 64) (by omega)
          have n4 := b64char_ne_pad (c % 64) (by omega)
          have v1 := b64val_b64char (a / 4) (by omega)
          have v2 := b64val_b64char (a % 4 * 16 + b / 16) (by omega)
          have v3 := b64val_b64char (b % 16 * 4 + c / 64) (by omega)
          have v4 := b64val_b64char (c % 64) (by omega)
          have ihr := ih rest hlen2 hrest
          rw [b64decode, b64encode] at ihr
          have hfil : (b64encode (a :: b :: c :: rest)).filter
                (fun c => c ≠ '=') =
              b64char (a / 4) :: b64char (a % 4 * 16 + b / 16) ::
              b64char (b % 16 * 4 + c / 64) :: b64char (c % 64) ::
              (b64encodeGroups rest).filter (fun c => c ≠ '=') := by
            simp [b64encode, b64encodeGroups, List.filter_cons, n1, n2, n3, n4]
          rw [b64decode, hfil]
          simp only [b64decodeGroups, v1, v2, v3, v4, List.cons.injEq]
          exact ⟨by omega, by omega, by omega, ihr⟩

/-- base64 round-trip: decoding the encoding of any byte string recovers it. -/
theorem b64_roundtrip (bs : List ℕ) (hb : ∀ b ∈ bs, b < 256) :
    b64decode (b64encode bs) = bs :=
  b64_roundtrip_aux bs.length bs le_rfl hb

/-- The embedded encoder agrees with `base64.b64encode` on reference
vectors: `b"\\x01\\xff\\x00"` encodes to `"Af8A"` and `b"M"` to `"TQ=="`. -/
theorem b64encode_reference_vectors :
    b64encode [1, 255, 0] = ['A', 'f', '8', 'A'] ∧
    b64encode [77] = ['T', 'Q', '=', '='] :=
  ⟨rfl, rfl⟩

/-- The movement payload assembled by `publish_movement` (lines 94-105): a
field-named object whose `face_image` field, present only when an image was
attached, holds the base64 text of the JPEG buffer. The JPEG buffer itself
(the `cv2.imencode` output) is opaque bytes. -/
structure MovementPayload where
  status : String
  confidence : ℚ
  target : String
  locked : Bool
  timestamp : ℚ
  face_image : Option (List Char)
deriving DecidableEq, Repr

/-- The payload construction of `publish_movement` (lines 94-105): the named
fields plus, when `img` is attached, `face_image := base64 text of img`. -/
def publish_movement_payload (status target : String) (locked : Bool)
    (confidence timestamp : ℚ) (img : Option (List ℕ)) : MovementPayload :=
  { status := status
    confidence := confidence
    target := target
    locked := locked
    timestamp := timestamp
    face_image := img.map b64encode }

/-- Modelled from the spec: the decoding side of the round-trip property —
the consumer that JSON-parses a movement payload and base64-decodes its
`face_image` field is the dashboard node, which is not part of `src/`; per
the spec it reads the named fields back and base64-decodes the image text. -/
def decode_movement (p : MovementPayload) :
    String × String × Bool × Option (List ℕ) :=
  (p.status, p.target, p.locked, p.face_image.map b64decode)

/-- C9: encoding a movement message that carries an attached image and then
decoding the payload (field access plus base64 decode of `face_image`)
recovers the identical status string, target name, locked flag and a
byte-identical copy of the encoded image bytes. -/
theorem C9_codec_roundtrip (status target : String) (locked : Bool)
    (confidence timestamp : ℚ) (img : List ℕ)
    (himg : ∀ b ∈ img, b < 256) :
    decode_movement
        (publish_movement_payload status target locked confidence timestamp
          (some img)) =
      (status, target, locked, some img) := by
  simp [decode_movement, publish_movement_payload, b64_roundtrip img himg]

/-- C9 witness: a MOVE_LEFT message for target "andrew" with image bytes
`[1, 255, 0]` round-trips exactly. -/
theorem C9_codec_roundtrip_witness :
    decode_movement
        (publish_movement_payload "MOVE_LEFT" "andrew" true 1 0
          (some [1, 255, 0])) =
      ("MOVE_LEFT", "andrew", true, some [1, 255, 0]) :=
  C9_codec_roundtrip "MOVE_LEFT" "andrew" true 1 0 [1, 255, 0] (by decide)

end VisionNode
